import Mathlib

/-!
Verification of the intent-datasets analysis scripts.

The repository consists of small pandas scripts over CSV files:
`relationship_analyzer.py` (dataset loader, foreign-key relationship
analyzer, data-coverage analyzer), `analyze_datasets.py` (per-file
overview statistics and schema/type-mismatch checking) and
`sampler.py` / `scripts/sampler.py` (truncating copies of large CSVs).

Shallow embedding conventions:
- A pandas DataFrame is a `Table`: a row count (`len(df)`) together with
  named columns.  A cell is `Option String`; `none` models a null (NaN)
  cell and `some s` models a non-null cell whose text representation
  (the result of `.astype(str)` on that cell) is `s`.  The relationship
  analyzer compares values only after `.astype(str)`, so cells are kept
  at that textual level.  A column also carries the string form of its
  pandas dtype (`str(df[col].dtype)`), used by the schema checker.
- File I/O is abstracted: a directory listing is a list of
  `(file name, parse outcome)` pairs, where the outcome `none` models
  `pd.read_csv` raising an exception for that file.
- Python `round(x, 2)` on the (nonnegative) percentages is modelled on
  ℚ by `round2`: round-half-to-even at two decimal places.
- Fields of the overview statistics that depend on the filesystem or on
  pandas internals (file size, memory usage, date-range parsing, and the
  per-key unique-count extras) are outside the embedding and omitted.
-/

/-- One pandas column: its name, the string form of its dtype, and its
cells (`none` = null, `some s` = cell whose `astype(str)` text is `s`). -/
structure Column where
  name : String
  dtype : String
  cells : List (Option String)
deriving DecidableEq

/-- One pandas DataFrame: `nrows` is `len(df)`; `cols` the named columns.
In pandas every column of a frame has exactly `len(df)` cells; where a
statement needs that invariant it is taken as an explicit hypothesis. -/
structure Table where
  nrows : Nat
  cols : List Column
deriving DecidableEq

/-- `df[key]`: the first column named `key`, if any (`key in df.columns`). -/
def Table.col? (t : Table) (key : String) : Option Column :=
  t.cols.find? (fun c => c.name == key)

/-- Lookup of `datasets[name]` in the loaded-tables dictionary. -/
def lookupTable (datasets : List (String × Table)) (name : String) : Option Table :=
  (datasets.find? (fun p => p.1 == name)).map (fun p => p.2)

/-- `series.dropna()`: the non-null cells, in order. -/
def dropna (cells : List (Option String)) : List String := cells.filterMap id

/-- Python `round(q)` to an integer, rounding halves to even, on ℚ.
This models CPython's `round` on the exact rational value of the float. -/
def roundHalfToEven (q : ℚ) : ℤ :=
  if q - (⌊q⌋ : ℚ) < 1/2 then ⌊q⌋
  else if (1:ℚ)/2 < q - (⌊q⌋ : ℚ) then ⌊q⌋ + 1
  else if 2 ∣ ⌊q⌋ then ⌊q⌋ else ⌊q⌋ + 1

/-- Python `round(q, 2)` on ℚ: round half to even at two decimals. -/
def round2 (q : ℚ) : ℚ := (roundHalfToEven (q * 100) : ℚ) / 100

/-- A declared relationship tuple
`(parent_table, parent_key, child_table, child_key)`. -/
structure RelDecl where
  parent_table : String
  parent_key : String
  child_table : String
  child_key : String
deriving DecidableEq

/-- One row of the relationship-analysis output (`analyze_foreign_keys`). -/
structure FKResult where
  parent_table : String
  parent_key : String
  child_table : String
  child_key : String
  parent_unique_values : Nat
  child_total_refs : Nat
  valid_refs : Nat
  invalid_refs : Nat
  referential_integrity_pct : ℚ
  relationship_type : String

/-- `set(parent_df[parent_key].dropna().astype(str))`: the distinct
non-null parent-key values, as text.  `List.dedup` keeps one occurrence
of each distinct value; only membership and cardinality are used. -/
def parentValues (pcol : Column) : List String := (dropna pcol.cells).dedup

/-- `len(child_df[child_df[child_key].notna()])`: the number of rows of
the child frame whose child-key cell is non-null. -/
def totalChildRefs (ccol : Column) : Nat := ccol.cells.countP (fun o => o.isSome)

/-- `len([v for v in child_df[child_key].dropna().astype(str) if v in parent_values])`. -/
def validRefs (pcol ccol : Column) : Nat :=
  ((dropna ccol.cells).filter (fun v => (parentValues pcol).contains v)).length

/-- The result record appended for one evaluated relationship
(`relationship_analyzer.py` lines 146-175):
`invalid_refs = total_child_refs - valid_refs`, the integrity percentage
is `valid_refs / total_child_refs * 100` guarded to `0` when
`total_child_refs == 0` and then rounded to two decimals, and the type is
`"self-referencing"` exactly when parent and child table names match. -/
def mkFKResult (r : RelDecl) (pcol ccol : Column) : FKResult :=
  { parent_table := r.parent_table
    parent_key := r.parent_key
    child_table := r.child_table
    child_key := r.child_key
    parent_unique_values := (parentValues pcol).length
    child_total_refs := totalChildRefs ccol
    valid_refs := validRefs pcol ccol
    invalid_refs := totalChildRefs ccol - validRefs pcol ccol
    referential_integrity_pct := round2
      (if 0 < totalChildRefs ccol then
        (validRefs pcol ccol : ℚ) / (totalChildRefs ccol : ℚ) * 100
      else 0)
    relationship_type :=
      if r.parent_table == r.child_table then "self-referencing" else "foreign_key" }

/-- The body of the relationship loop: skip (`continue`) when either
table is missing from `datasets` or either key column is missing from
its table; otherwise produce the result record. -/
def evalRel (datasets : List (String × Table)) (r : RelDecl) : Option FKResult :=
  match lookupTable datasets r.parent_table, lookupTable datasets r.child_table with
  | some parent_df, some child_df =>
    match parent_df.col? r.parent_key, child_df.col? r.child_key with
    | some pcol, some ccol => some (mkFKResult r pcol ccol)
    | _, _ => none
  | _, _ => none

/-- The hard-coded relationship declarations of `analyze_foreign_keys`. -/
def relationships : List RelDecl :=
  [ ⟨"db1_keyword_sets_file_sample.csv", "id",
     "db1_keyword_set_keywords_file_sample.csv", "keyword_set_id"⟩,
    ⟨"db1_keyword_sets_file_sample.csv", "id",
     "db_company_intent_geo_weekly_file_sample.csv", "keyword_set_id"⟩,
    ⟨"db1_keyword_sets_file_sample.csv", "id",
     "db_company_intent_geo_weekly_keywordset_contact_scores_file_sample.csv",
     "keyword_set_id"⟩,
    ⟨"db_company_file_sample.csv", "company_id",
     "db_contacts_file_sample.csv", "company_id"⟩,
    ⟨"db_company_file_sample.csv", "company_id",
     "db_company_intent_geo_weekly_file_sample.csv", "company_id"⟩,
    ⟨"db_company_file_sample.csv", "company_id",
     "db_company_intent_geo_weekly_keywordset_contact_scores_file_sample.csv",
     "company_id"⟩,
    ⟨"db_company_full_file_sample.csv", "company_id",
     "db_contacts_file_sample.csv", "company_id"⟩,
    ⟨"db_company_full_file_sample.csv", "company_id",
     "db_company_intent_geo_weekly_file_sample.csv", "company_id"⟩,
    ⟨"db_company_full_file_sample.csv", "company_id",
     "db_company_intent_geo_weekly_keywordset_contact_scores_file_sample.csv",
     "company_id"⟩,
    ⟨"db_contacts_file_sample.csv", "employment_id",
     "db_company_intent_geo_weekly_keywordset_contact_scores_file_sample.csv",
     "employment_id"⟩,
    ⟨"db_company_file_sample.csv", "company_id",
     "db_company_file_sample.csv", "parent_id"⟩,
    ⟨"db_company_file_sample.csv", "company_id",
     "db_company_file_sample.csv", "ultimate_parent_id"⟩,
    ⟨"db_company_full_file_sample.csv", "company_id",
     "db_company_full_file_sample.csv", "parent_id"⟩,
    ⟨"db_company_full_file_sample.csv", "company_id",
     "db_company_full_file_sample.csv", "ultimate_parent_id"⟩ ]

/-- `analyze_foreign_keys`: evaluate every declared relationship against
the loaded tables, collecting the result records of those not skipped. -/
def analyze_foreign_keys (datasets : List (String × Table)) : List FKResult :=
  relationships.filterMap (evalRel datasets)

/-- One row of the data-coverage output (`analyze_data_coverage`).
`null_percentage` is `Option ℚ`: `none` models the NaN produced by
`(null_count / len(df)) * 100` when `len(df) == 0` (numpy scalar
division by zero yields NaN, and `round(nan, 2)` is NaN). -/
structure CoverageRecord where
  table : String
  column : String
  total_rows : Nat
  null_count : Nat
  null_percentage : Option ℚ
  unique_values : Nat
  data_type : String

/-- The coverage record of one column (`relationship_analyzer.py`
lines 184-200): `null_count = df[col].isnull().sum()`,
`null_pct = null_count / len(df) * 100` (NaN when `len(df) == 0`),
rounded to two decimals, and `unique_values = df[col].nunique()`
(distinct non-null values). -/
def coverageFor (filename : String) (t : Table) (c : Column) : CoverageRecord :=
  { table := filename
    column := c.name
    total_rows := t.nrows
    null_count := c.cells.countP (fun o => o.isNone)
    null_percentage :=
      if t.nrows = 0 then none
      else some (round2 ((c.cells.countP (fun o => o.isNone) : ℚ) / (t.nrows : ℚ) * 100))
    unique_values := (dropna c.cells).dedup.length
    data_type := c.dtype }

/-- `analyze_data_coverage`: one coverage record per column per table. -/
def analyze_data_coverage (datasets : List (String × Table)) : List CoverageRecord :=
  datasets.flatMap (fun p => p.2.cols.map (coverageFor p.1 p.2))

/-- The two fatal setup errors of the dataset loader. -/
inductive LoadError where
  | directoryNotFound : String → LoadError
  | noInputFiles : String → LoadError
deriving DecidableEq

/-- `load_datasets` (`relationship_analyzer.py` lines 14-36).  The
filesystem is abstracted into the `listing` argument: `none` models an
absent directory, `some files` the list of CSV files found, each paired
with its parse outcome (`none` = `pd.read_csv` raised).  A file that
fails to parse is reported and skipped (the `except` branch prints and
continues); the remaining files still load. -/
def load_datasets (data_dir : String)
    (listing : Option (List (String × Option Table))) :
    Except LoadError (List (String × Table)) :=
  match listing with
  | none => .error (.directoryNotFound data_dir)
  | some files =>
    if files.isEmpty then .error (.noInputFiles data_dir)
    else .ok (files.filterMap (fun p => p.2.map (fun t => (p.1, t))))

/-- `df.head(n)`: the first `n` rows of every column. -/
def Table.head (t : Table) (n : Nat) : Table :=
  { nrows := min n t.nrows
    cols := t.cols.map (fun c => { c with cells := c.cells.take n }) }

/-- The per-file body of `sampler.py` (lines 16-27): the frame is read
with `dtype=str` (cells stay raw text, no type coercion); a frame of at
most 500 rows is written verbatim under a `copy_` prefix, a larger one
is truncated to its first 500 rows under a `sample_` prefix. -/
def sample_file (filename : String) (t : Table) : String × Table :=
  if t.nrows ≤ 500 then ("copy_" ++ filename, t)
  else ("sample_" ++ filename, t.head 500)

/-- The whole sampler loop: one output file per input CSV. -/
def run_sampler (files : List (String × Table)) : List (String × Table) :=
  files.map (fun p => sample_file p.1 p.2)

/-- Bool test for `needle` being a prefix of `hay` on character lists. -/
def leadsWith : List Char → List Char → Bool
  | [], _ => true
  | _ :: _, [] => false
  | a :: as, b :: bs => a == b && leadsWith as bs

/-- Bool test for `needle` occurring contiguously in `hay`. -/
def occursIn (needle : List Char) : List Char → Bool
  | [] => leadsWith needle []
  | b :: bs => leadsWith needle (b :: bs) || occursIn needle bs

/-- Python's substring test `needle in hay` on strings. -/
def strContains (hay needle : String) : Bool := occursIn needle.data hay.data

/-- The expected-schema table `SCHEMAS` of `analyze_datasets.py`,
mapping file name to (column, expected dtype) pairs. -/
def SCHEMAS : List (String × List (String × String)) :=
  [ ("db_company_intent_geo_weekly_file_sample.csv",
     [("company_id", "int64"), ("domain", "object"), ("start_date", "object"),
      ("end_date", "object"), ("duration_type", "object"),
      ("keyword_set_id", "int64"), ("keyword_set", "object"),
      ("keyword", "object"), ("country", "object"),
      ("census_division", "object"), ("region", "object"), ("city", "object"),
      ("num_people_researching", "int64"), ("intent_strength", "object"),
      ("partition_date", "object")]),
    ("db_company_intent_geo_weekly_keywordset_contact_scores_file_sample.csv",
     [("dt", "object"), ("keyword_set_id", "int64"), ("company_id", "int64"),
      ("employment_id", "int64"), ("intent_score", "int64"),
      ("partition_date", "object")]),
    ("db_company_file_sample.csv",
     [("company_id", "int64"), ("employees", "float64"), ("revenue", "float64"),
      ("isroot", "int64"), ("best_domain", "bool")]),
    ("db_company_full_file_sample.csv",
     [("company_id", "int64"), ("employees", "float64"), ("revenue", "float64"),
      ("isroot", "float64"), ("sic", "float64")]),
    ("db_contacts_file_sample.csv",
     [("executive_id", "int64"), ("employment_id", "int64"),
      ("company_id", "int64"), ("revenue_usd", "float64"),
      ("employees", "float64"), ("sic_us", "float64"), ("naics", "float64"),
      ("equifax_id", "float64")]),
    ("db1_keyword_sets_file_sample.csv",
     [("id", "int64"), ("competitive", "bool")]),
    ("db1_keyword_set_keywords_file_sample.csv",
     [("keyword_set_id", "int64")]) ]

/-- The per-schema-entry body of the mismatch loop of
`analyze_csv_files` (`analyze_datasets.py` lines 98-110): a schema
column absent from the frame is skipped; an expected `bool` that is
observed as neither `bool` nor `boolean` is a mismatch; an expected
`int64`/`float64` whose observed dtype contains `"object"` is a
mismatch of the form `"<col>: expected numeric, got <actual>"`. -/
def checkCol (dfCols : List (String × String)) (p : String × String) : Option String :=
  match dfCols.find? (fun c => c.1 == p.1) with
  | none => none
  | some (_, actual) =>
    if p.2 == "bool" && !(actual == "bool" || actual == "boolean") then
      some (p.1 ++ ": expected bool, got " ++ actual)
    else if (p.2 == "int64" || p.2 == "float64") && strContains actual "object" then
      some (p.1 ++ ": expected numeric, got " ++ actual)
    else none

/-- The whole mismatch loop: iterate the expected schema, collecting
one mismatch description per offending schema column. -/
def analyze_mismatches (schema dfCols : List (String × String)) : List String :=
  schema.filterMap (checkCol dfCols)

/-- One row of the overview statistics of `analyze_csv_files`.
`null_percentage` is NaN (`none`) when `rows * columns == 0`.
File size, memory usage, the conditional unique-count fields and the
date-range field are filesystem/pandas-dependent and omitted. -/
structure Stats where
  file : String
  rows : Nat
  columns : Nat
  total_nulls : Nat
  columns_with_nulls : Nat
  null_percentage : Option ℚ
  type_mismatches : Nat
  mismatch_details : String

/-- The statistics computed for one successfully parsed file
(`analyze_datasets.py` lines 75-115). -/
def statsFor (filename : String) (t : Table) : Stats :=
  let null_counts := t.cols.map (fun c => c.cells.countP (fun o => o.isNone))
  let total_nulls := null_counts.sum
  let mismatches :=
    match SCHEMAS.find? (fun p => p.1 == filename) with
    | some p => analyze_mismatches p.2 (t.cols.map (fun (c : Column) => (c.name, c.dtype)))
    | none => []
  { file := filename
    rows := t.nrows
    columns := t.cols.length
    total_nulls := total_nulls
    columns_with_nulls := null_counts.countP (fun n => decide (0 < n))
    null_percentage :=
      if t.nrows * t.cols.length = 0 then none
      else some (round2 ((total_nulls : ℚ) / ((t.nrows * t.cols.length : ℕ) : ℚ) * 100))
    type_mismatches := mismatches.length
    mismatch_details :=
      String.intercalate ", " (mismatches.take 3) ++
        (if 3 < mismatches.length then "..." else "") }

/-- `analyze_csv_files` (`analyze_datasets.py` lines 63-141) over the
sorted directory listing, each file paired with its parse outcome
(`none` = `pd.read_csv` raised).  The per-file `pd.read_csv` call at
line 73 has no exception handling, so the first failing file aborts the
whole analysis: the error propagates and no statistics are returned. -/
def analyze_csv_files : List (String × Option Table) → Except String (List Stats)
  | [] => .ok []
  | (filename, none) :: _ => .error filename
  | (filename, some t) :: rest =>
    match analyze_csv_files rest with
    | .error e => .error e
    | .ok rs => .ok (statsFor filename t :: rs)

lemma dropna_length (l : List (Option String)) :
    (dropna l).length = l.countP (fun o => o.isSome) := by
  induction l with
  | nil => rfl
  | cons a l ih =>
    cases a with
    | none =>
      simp only [dropna, List.filterMap_cons, id_eq, List.countP_cons] at ih ⊢
      simpa using ih
    | some v =>
      simp only [dropna, List.filterMap_cons, id_eq, List.countP_cons,
        List.length_cons] at ih ⊢
      simp [ih]

lemma countP_none_add_some (l : List (Option String)) :
    l.countP (fun o => o.isNone) + l.countP (fun o => o.isSome) = l.length := by
  induction l with
  | nil => rfl
  | cons a l ih =>
    cases a <;> simp [List.countP_cons] <;> omega

lemma validRefs_le_totalChildRefs (pcol ccol : Column) :
    validRefs pcol ccol ≤ totalChildRefs ccol := by
  have h := List.length_filter_le (fun v => (parentValues pcol).contains v) (dropna ccol.cells)
  calc validRefs pcol ccol ≤ (dropna ccol.cells).length := h
    _ = totalChildRefs ccol := dropna_length ccol.cells

lemma roundHalfToEven_nonneg {q : ℚ} (h : 0 ≤ q) : 0 ≤ roundHalfToEven q := by
  have hn : (0:ℤ) ≤ ⌊q⌋ := Int.floor_nonneg.mpr h
  unfold roundHalfToEven
  split_ifs <;> omega

lemma roundHalfToEven_le {q : ℚ} {B : ℤ} (h : q ≤ (B:ℚ)) : roundHalfToEven q ≤ B := by
  have hfl : ⌊q⌋ ≤ B := by
    have := Int.floor_le_floor h
    simpa using this
  have hfloor : (⌊q⌋ : ℚ) ≤ q := Int.floor_le q
  unfold roundHalfToEven
  split_ifs with h1 h2 h3
  · exact hfl
  · have hq : (⌊q⌋ : ℚ) + 1/2 < q := by linarith
    have : (⌊q⌋ : ℚ) < (B : ℚ) := by linarith
    have : ⌊q⌋ < B := by exact_mod_cast this
    omega
  · exact hfl
  · have hq : (⌊q⌋ : ℚ) + 1/2 ≤ q := by
      have := not_lt.mp h1
      linarith
    have : (⌊q⌋ : ℚ) < (B : ℚ) := by linarith
    have : ⌊q⌋ < B := by exact_mod_cast this
    omega

lemma round2_nonneg {q : ℚ} (h : 0 ≤ q) : 0 ≤ round2 q := by
  have h2 := roundHalfToEven_nonneg (q := q * 100) (by positivity)
  have : (0:ℚ) ≤ (roundHalfToEven (q * 100) : ℚ) := by exact_mod_cast h2
  unfold round2
  positivity

lemma round2_le_100 {q : ℚ} (h : q ≤ 100) : round2 q ≤ 100 := by
  have hb : q * 100 ≤ ((10000:ℤ) : ℚ) := by push_cast; linarith
  have h3 := roundHalfToEven_le hb
  have h4 : ((roundHalfToEven (q * 100) : ℤ) : ℚ) ≤ ((10000:ℤ) : ℚ) := by exact_mod_cast h3
  unfold round2
  rw [div_le_iff₀ (by norm_num : (0:ℚ) < 100)]
  push_cast at h4 ⊢
  linarith

lemma round2_zero : round2 0 = 0 := by
  unfold round2 roundHalfToEven
  norm_num

lemma integrity_nonneg (pcol ccol : Column) :
    0 ≤ (if 0 < totalChildRefs ccol then
      (validRefs pcol ccol : ℚ) / (totalChildRefs ccol : ℚ) * 100 else 0) := by
  split_ifs with h
  · positivity
  · exact le_refl 0

lemma integrity_le_100 (pcol ccol : Column) :
    (if 0 < totalChildRefs ccol then
      (validRefs pcol ccol : ℚ) / (totalChildRefs ccol : ℚ) * 100 else 0) ≤ 100 := by
  split_ifs with h
  · have hle : (validRefs pcol ccol : ℚ) ≤ (totalChildRefs ccol : ℚ) := by
      exact_mod_cast validRefs_le_totalChildRefs pcol ccol
    have hpos : (0:ℚ) < (totalChildRefs ccol : ℚ) := by exact_mod_cast h
    have h1 : (validRefs pcol ccol : ℚ) / (totalChildRefs ccol : ℚ) ≤ 1 :=
      (div_le_one hpos).mpr hle
    linarith
  · norm_num

lemma evalRel_eq_some {datasets : List (String × Table)} {r : RelDecl} {res : FKResult}
    (h : evalRel datasets r = some res) :
    ∃ pcol ccol, res = mkFKResult r pcol ccol := by
  unfold evalRel at h
  split at h
  · split at h
    · exact ⟨_, _, (Option.some.injEq _ _ ▸ h).symm⟩
    · exact absurd h (by simp)
  · exact absurd h (by simp)

lemma length_filterMap_eq_countP {α β : Type} (f : α → Option β) (l : List α) :
    (l.filterMap f).length = l.countP (fun a => (f a).isSome) := by
  induction l with
  | nil => rfl
  | cons a l ih =>
    cases hfa : f a <;> simp [List.filterMap_cons, hfa, List.countP_cons, ih]

/-- Witness data: a one-row company table carrying `company_id` and
`parent_id` columns, so that the self-referencing hierarchy relationship
is evaluated by `analyze_foreign_keys`. -/
def wSelfPcol : Column := ⟨"company_id", "int64", [some "1"]⟩

def wSelfCcol : Column := ⟨"parent_id", "float64", [some "1"]⟩

def wSelfTable : Table := ⟨1, [wSelfPcol, wSelfCcol]⟩

def wSelfRel : RelDecl :=
  ⟨"db_company_file_sample.csv", "company_id",
   "db_company_file_sample.csv", "parent_id"⟩

def wSelfRes : FKResult := mkFKResult wSelfRel wSelfPcol wSelfCcol

def wSelfDs : List (String × Table) := [("db_company_file_sample.csv", wSelfTable)]

/-- Witness data: the same table shape but with every `parent_id` cell
null, so the evaluated relationship has zero non-null child references. -/
def wNullCcol : Column := ⟨"parent_id", "float64", [none]⟩

def wNullTable : Table := ⟨1, [wSelfPcol, wNullCcol]⟩

def wNullRes : FKResult := mkFKResult wSelfRel wSelfPcol wNullCcol

def wNullDs : List (String × Table) := [("db_company_file_sample.csv", wNullTable)]

/-- C1: every result produced by the relationship analyzer satisfies
`valid_refs + invalid_refs = child_total_refs`, and its
`referential_integrity_pct` lies between 0 and 100. -/
theorem fk_result_conservation_and_pct_bounds
    (datasets : List (String × Table)) (res : FKResult)
    (h : res ∈ analyze_foreign_keys datasets) :
    res.valid_refs + res.invalid_refs = res.child_total_refs ∧
    0 ≤ res.referential_integrity_pct ∧ res.referential_integrity_pct ≤ 100 := by
  obtain ⟨r, hr, hev⟩ := List.mem_filterMap.mp h
  obtain ⟨pcol, ccol, rfl⟩ := evalRel_eq_some hev
  refine ⟨?_, ?_, ?_⟩
  · show validRefs pcol ccol + (totalChildRefs ccol - validRefs pcol ccol) =
      totalChildRefs ccol
    have := validRefs_le_totalChildRefs pcol ccol
    omega
  · exact round2_nonneg (integrity_nonneg pcol ccol)
  · exact round2_le_100 (integrity_le_100 pcol ccol)

/-- Witness for C1: the self-referencing hierarchy relationship is
evaluated on `wSelfDs` and its result satisfies the claimed bounds. -/
theorem fk_result_conservation_and_pct_bounds_witness :
    wSelfRes ∈ analyze_foreign_keys wSelfDs ∧
    (wSelfRes.valid_refs + wSelfRes.invalid_refs = wSelfRes.child_total_refs ∧
      0 ≤ wSelfRes.referential_integrity_pct ∧
      wSelfRes.referential_integrity_pct ≤ 100) :=
  have hmem : wSelfRes ∈ analyze_foreign_keys wSelfDs := by
    show wSelfRes ∈ [wSelfRes]
    exact List.mem_singleton.mpr rfl
  ⟨hmem, fk_result_conservation_and_pct_bounds wSelfDs wSelfRes hmem⟩

/-- C5: an evaluated relationship whose child table has zero non-null
child-key values reports an integrity percentage of exactly 0 (the
division is guarded, so no division by zero is performed). -/
theorem fk_zero_child_refs_pct_zero
    (datasets : List (String × Table)) (res : FKResult)
    (h : res ∈ analyze_foreign_keys datasets)
    (h0 : res.child_total_refs = 0) :
    res.referential_integrity_pct = 0 := by
  obtain ⟨r, hr, hev⟩ := List.mem_filterMap.mp h
  obtain ⟨pcol, ccol, rfl⟩ := evalRel_eq_some hev
  have h0' : totalChildRefs ccol = 0 := h0
  show round2 (if 0 < totalChildRefs ccol then
    (validRefs pcol ccol : ℚ) / (totalChildRefs ccol : ℚ) * 100 else 0) = 0
  rw [h0', if_neg (lt_irrefl 0)]
  exact round2_zero

/-- Witness for C5: on `wNullDs` the evaluated hierarchy relationship
has `child_total_refs = 0` and integrity percentage 0. -/
theorem fk_zero_child_refs_pct_zero_witness :
    wNullRes ∈ analyze_foreign_keys wNullDs ∧
    wNullRes.child_total_refs = 0 ∧
    wNullRes.referential_integrity_pct = 0 :=
  have hmem : wNullRes ∈ analyze_foreign_keys wNullDs := by
    show wNullRes ∈ [wNullRes]
    exact List.mem_singleton.mpr rfl
  have h0 : wNullRes.child_total_refs = 0 := by decide
  ⟨hmem, h0, fk_zero_child_refs_pct_zero wNullDs wNullRes hmem h0⟩

/-- C6: an evaluated relationship is classified `"self-referencing"`
exactly when its parent and child table identifiers coincide, and
`"foreign_key"` otherwise. -/
theorem fk_relationship_type_self_iff
    (datasets : List (String × Table)) (res : FKResult)
    (h : res ∈ analyze_foreign_keys datasets) :
    (res.relationship_type = "self-referencing" ↔
      res.parent_table = res.child_table) ∧
    (res.parent_table ≠ res.child_table → res.relationship_type = "foreign_key") := by
  obtain ⟨r, hr, hev⟩ := List.mem_filterMap.mp h
  obtain ⟨pcol, ccol, rfl⟩ := evalRel_eq_some hev
  have hty : (mkFKResult r pcol ccol).relationship_type =
      if r.parent_table = r.child_table then "self-referencing" else "foreign_key" := by
    show (if r.parent_table == r.child_table then "self-referencing" else "foreign_key") = _
    by_cases hpc : r.parent_table = r.child_table
    · rw [if_pos (beq_iff_eq.mpr hpc), if_pos hpc]
    · rw [if_neg (by simp [beq_iff_eq, hpc]), if_neg hpc]
  have hpt : (mkFKResult r pcol ccol).parent_table = r.parent_table := rfl
  have hct : (mkFKResult r pcol ccol).child_table = r.child_table := rfl
  rw [hty, hpt, hct]
  constructor
  · split_ifs with hpc
    · simp [hpc]
    · simp only [iff_false, hpc]
      decide
  · intro hne
    rw [if_neg hne]

/-- Witness for C6: the evaluated relationship of `wSelfDs` joins the
company table to itself and is classified `"self-referencing"`. -/
theorem fk_relationship_type_self_iff_witness :
    wSelfRes ∈ analyze_foreign_keys wSelfDs ∧
    ((wSelfRes.relationship_type = "self-referencing" ↔
        wSelfRes.parent_table = wSelfRes.child_table) ∧
      (wSelfRes.parent_table ≠ wSelfRes.child_table →
        wSelfRes.relationship_type = "foreign_key")) :=
  have hmem : wSelfRes ∈ analyze_foreign_keys wSelfDs := by
    show wSelfRes ∈ [wSelfRes]
    exact List.mem_singleton.mpr rfl
  ⟨hmem, fk_relationship_type_self_iff wSelfDs wSelfRes hmem⟩

/-- The end-to-end example data: a parent table whose key column holds
the texts of 1, 2, 3 and a child table whose key column holds the texts
of 1, 2, 5 and a null, under the declared keyword-set relationship. -/
def c2Pcol : Column := ⟨"id", "int64", [some "1", some "2", some "3"]⟩

def c2Ccol : Column :=
  ⟨"keyword_set_id", "float64", [some "1", some "2", some "5", none]⟩

def c2Parent : Table := ⟨3, [c2Pcol]⟩

def c2Child : Table := ⟨4, [c2Ccol]⟩

def c2Rel : RelDecl :=
  ⟨"db1_keyword_sets_file_sample.csv", "id",
   "db1_keyword_set_keywords_file_sample.csv", "keyword_set_id"⟩

def c2Ds : List (String × Table) :=
  [("db1_keyword_sets_file_sample.csv", c2Parent),
   ("db1_keyword_set_keywords_file_sample.csv", c2Child)]

/-- C2: on the example datasets the relationship analyzer produces
exactly one result, with `parent_unique_values = 3`,
`child_total_refs = 3`, `valid_refs = 2`, `invalid_refs = 1` and
`referential_integrity_pct = 66.67` (validity is membership of the
child cell text in the set of distinct non-null parent cell texts). -/
theorem fk_end_to_end_example :
    (analyze_foreign_keys c2Ds).map (fun res =>
      (res.parent_unique_values, res.child_total_refs, res.valid_refs,
        res.invalid_refs, res.referential_integrity_pct)) =
    [(3, 3, 2, 1, (6667:ℚ)/100)] := by
  have hred : analyze_foreign_keys c2Ds = [mkFKResult c2Rel c2Pcol c2Ccol] := rfl
  rw [hred]
  simp only [List.map_cons, List.map_nil]
  have h1 : (mkFKResult c2Rel c2Pcol c2Ccol).parent_unique_values = 3 := by decide
  have h2 : (mkFKResult c2Rel c2Pcol c2Ccol).child_total_refs = 3 := by decide
  have h3 : (mkFKResult c2Rel c2Pcol c2Ccol).valid_refs = 2 := by decide
  have h4 : (mkFKResult c2Rel c2Pcol c2Ccol).invalid_refs = 1 := by decide
  have h5 : (mkFKResult c2Rel c2Pcol c2Ccol).referential_integrity_pct =
      (6667:ℚ)/100 := by
    show round2 (if 0 < totalChildRefs c2Ccol then
      (validRefs c2Pcol c2Ccol : ℚ) / (totalChildRefs c2Ccol : ℚ) * 100 else 0) =
      (6667:ℚ)/100
    have hv : validRefs c2Pcol c2Ccol = 2 := by decide
    have ht : totalChildRefs c2Ccol = 3 := by decide
    rw [hv, ht, if_pos (by norm_num : (0:ℕ) < 3)]
    rw [round2, roundHalfToEven]
    have hf : ⌊(((2:ℕ):ℚ)/((3:ℕ):ℚ)*100)*100⌋ = 6666 := by
      rw [Int.floor_eq_iff]
      push_cast
      norm_num
    rw [hf]
    norm_num
  rw [h1, h2, h3, h4, h5]

lemma evalRel_parent_none {datasets : List (String × Table)} {r : RelDecl}
    (h : lookupTable datasets r.parent_table = none) : evalRel datasets r = none := by
  unfold evalRel
  rw [h]

lemma evalRel_child_none {datasets : List (String × Table)} {r : RelDecl}
    (h : lookupTable datasets r.child_table = none) : evalRel datasets r = none := by
  unfold evalRel
  rw [h]
  rcases lookupTable datasets r.parent_table with _ | pdf <;> rfl

lemma evalRel_pcol_none {datasets : List (String × Table)} {r : RelDecl}
    {parent_df : Table}
    (hp : lookupTable datasets r.parent_table = some parent_df)
    (h : parent_df.col? r.parent_key = none) : evalRel datasets r = none := by
  rcases hc : lookupTable datasets r.child_table with _ | cdf
  · exact evalRel_child_none hc
  · unfold evalRel
    rw [hp, hc]
    show (match parent_df.col? r.parent_key, cdf.col? r.child_key with
      | some pcol, some ccol => some (mkFKResult r pcol ccol)
      | _, _ => none) = none
    rw [h]

lemma evalRel_ccol_none {datasets : List (String × Table)} {r : RelDecl}
    {child_df : Table}
    (hc : lookupTable datasets r.child_table = some child_df)
    (h : child_df.col? r.child_key = none) : evalRel datasets r = none := by
  rcases hp : lookupTable datasets r.parent_table with _ | pdf
  · exact evalRel_parent_none hp
  · unfold evalRel
    rw [hp, hc]
    show (match pdf.col? r.parent_key, child_df.col? r.child_key with
      | some pcol, some ccol => some (mkFKResult r pcol ccol)
      | _, _ => none) = none
    rw [h]
    rcases pdf.col? r.parent_key with _ | pcol <;> rfl

/-- C4: a relationship whose parent or child table is not loaded, or
whose parent or child key column is absent, is skipped silently: its
evaluation yields no result record (never a zeroed entry, and the
evaluation is a total function, so no error is raised), and the
analyzer's output has exactly one entry per relationship that was not
skipped. -/
theorem fk_missing_table_or_column_skipped
    (datasets : List (String × Table)) (r : RelDecl) :
    (lookupTable datasets r.parent_table = none → evalRel datasets r = none) ∧
    (lookupTable datasets r.child_table = none → evalRel datasets r = none) ∧
    (∀ parent_df, lookupTable datasets r.parent_table = some parent_df →
      parent_df.col? r.parent_key = none → evalRel datasets r = none) ∧
    (∀ child_df, lookupTable datasets r.child_table = some child_df →
      child_df.col? r.child_key = none → evalRel datasets r = none) ∧
    (analyze_foreign_keys datasets).length =
      relationships.countP (fun rel => (evalRel datasets rel).isSome) := by
  refine ⟨fun h => evalRel_parent_none h, fun h => evalRel_child_none h,
    fun pdf hp h => evalRel_pcol_none hp h,
    fun cdf hc h => evalRel_ccol_none hc h, ?_⟩
  exact length_filterMap_eq_countP (evalRel datasets) relationships

/-- Witness for C4: with no tables loaded, the keyword-set relationship
has no parent table and is skipped. -/
theorem fk_missing_table_or_column_skipped_witness :
    lookupTable ([] : List (String × Table)) c2Rel.parent_table = none ∧
    evalRel ([] : List (String × Table)) c2Rel = none :=
  ⟨rfl, (fk_missing_table_or_column_skipped [] c2Rel).1 rfl⟩

/-- C3 (amended): every coverage record satisfies
`null_count + non_null_count = total_rows`, and its null percentage is
`null_count / total_rows * 100` rounded to two decimals when
`total_rows > 0`; when `total_rows = 0` the unguarded division yields
NaN (`none`), not 0. -/
theorem coverage_record_invariants
    (datasets : List (String × Table)) (filename : String) (t : Table) (c : Column)
    (hmem : (filename, t) ∈ datasets) (hc : c ∈ t.cols)
    (hwf : c.cells.length = t.nrows) :
    coverageFor filename t c ∈ analyze_data_coverage datasets ∧
    (coverageFor filename t c).null_count + c.cells.countP (fun o => o.isSome) =
      (coverageFor filename t c).total_rows ∧
    ((coverageFor filename t c).total_rows = 0 →
      (coverageFor filename t c).null_percentage = none) ∧
    (0 < (coverageFor filename t c).total_rows →
      (coverageFor filename t c).null_percentage =
        some (round2 (((coverageFor filename t c).null_count : ℚ) /
          ((coverageFor filename t c).total_rows : ℚ) * 100))) := by
  refine ⟨?_, ?_, ?_, ?_⟩
  · exact List.mem_flatMap.mpr ⟨(filename, t), hmem, List.mem_map.mpr ⟨c, hc, rfl⟩⟩
  · show c.cells.countP (fun o => o.isNone) + c.cells.countP (fun o => o.isSome) = t.nrows
    rw [countP_none_add_some, hwf]
  · intro h0
    have h0' : t.nrows = 0 := h0
    show (if t.nrows = 0 then none
      else some (round2 ((c.cells.countP (fun o => o.isNone) : ℚ) / (t.nrows : ℚ) * 100)))
      = none
    rw [if_pos h0']
  · intro hpos
    have hne : ¬ t.nrows = 0 := by
      have hp : 0 < t.nrows := hpos
      omega
    show (if t.nrows = 0 then none
      else some (round2 ((c.cells.countP (fun o => o.isNone) : ℚ) / (t.nrows : ℚ) * 100)))
      = some (round2 ((c.cells.countP (fun o => o.isNone) : ℚ) / (t.nrows : ℚ) * 100))
    rw [if_neg hne]

/-- Witness data for the coverage invariants: a two-row table with one
null cell. -/
def wCovCol : Column := ⟨"a", "float64", [some "1", none]⟩

def wCovTable : Table := ⟨2, [wCovCol]⟩

def wCovDs : List (String × Table) := [("t.csv", wCovTable)]

/-- Witness for C3 (amended): the invariants hold for the single column
of `wCovDs`. -/
theorem coverage_record_invariants_witness :
    ("t.csv", wCovTable) ∈ wCovDs ∧
    (coverageFor "t.csv" wCovTable wCovCol ∈ analyze_data_coverage wCovDs ∧
      (coverageFor "t.csv" wCovTable wCovCol).null_count +
        wCovCol.cells.countP (fun o => o.isSome) =
        (coverageFor "t.csv" wCovTable wCovCol).total_rows ∧
      ((coverageFor "t.csv" wCovTable wCovCol).total_rows = 0 →
        (coverageFor "t.csv" wCovTable wCovCol).null_percentage = none) ∧
      (0 < (coverageFor "t.csv" wCovTable wCovCol).total_rows →
        (coverageFor "t.csv" wCovTable wCovCol).null_percentage =
          some (round2 (((coverageFor "t.csv" wCovTable wCovCol).null_count : ℚ) /
            ((coverageFor "t.csv" wCovTable wCovCol).total_rows : ℚ) * 100)))) :=
  ⟨by decide,
    coverage_record_invariants wCovDs "t.csv" wCovTable wCovCol
      (by decide) (by decide) (by decide)⟩

/-- Counterexample data: a zero-row table (as produced by a header-only
CSV) and a three-row table with one null. -/
def ceZeroTable : Table := ⟨0, [⟨"a", "object", []⟩]⟩

def ceZeroDs : List (String × Table) := [("empty.csv", ceZeroTable)]

def ceThirdCol : Column := ⟨"a", "float64", [none, some "1", some "2"]⟩

def ceThirdTable : Table := ⟨3, [ceThirdCol]⟩

def ceThirdDs : List (String × Table) := [("three.csv", ceThirdTable)]

/-- Counterexample for C3 as stated: on a zero-row table the coverage
record's null percentage is NaN (`none`), not 0 — the division
`null_count / len(df)` at line 187 of `relationship_analyzer.py` has no
zero guard — and on a three-row table with one null the stored
percentage is the rounded 33.33, not the exact `1/3 * 100`. -/
theorem coverage_zero_guard_counterexample :
    ((analyze_data_coverage ceZeroDs).map
        (fun cr => (cr.total_rows, cr.null_percentage)) = [(0, none)] ∧
      (none : Option ℚ) ≠ some 0) ∧
    ((analyze_data_coverage ceThirdDs).map
        (fun cr => (cr.total_rows, cr.null_count, cr.null_percentage)) =
        [(3, 1, some ((3333:ℚ)/100))] ∧
      (3333:ℚ)/100 ≠ ((1:ℚ)/(3:ℚ)) * 100) := by
  refine ⟨⟨rfl, by decide⟩, ⟨?_, by norm_num⟩⟩
  have h5 : round2 (((1:ℕ):ℚ)/((3:ℕ):ℚ)*100) = (3333:ℚ)/100 := by
    rw [round2, roundHalfToEven]
    have hf : ⌊(((1:ℕ):ℚ)/((3:ℕ):ℚ)*100)*100⌋ = 3333 := by
      rw [Int.floor_eq_iff]
      push_cast
      norm_num
    rw [hf]
    norm_num
  have hred : (analyze_data_coverage ceThirdDs).map
      (fun cr => (cr.total_rows, cr.null_count, cr.null_percentage)) =
      [(3, 1, some (round2 (((1:ℕ):ℚ)/((3:ℕ):ℚ)*100)))] := rfl
  rw [hred, h5]

/-- C7: the loader fails with `directoryNotFound` when the directory is
absent and with `noInputFiles` when it holds no CSV files; a single
file that fails to parse is skipped while every successfully parsed
file still loads, so one bad file does not abort the run. -/
theorem loader_error_and_partial_failure
    (data_dir : String) (files : List (String × Option Table))
    (filename : String) (t : Table) :
    load_datasets data_dir none = .error (.directoryNotFound data_dir) ∧
    load_datasets data_dir (some []) = .error (.noInputFiles data_dir) ∧
    ((filename, some t) ∈ files → ∃ loaded,
      load_datasets data_dir (some files) = .ok loaded ∧ (filename, t) ∈ loaded) ∧
    ((filename, none) ∈ files → ∃ loaded,
      load_datasets data_dir (some files) = .ok loaded) := by
  refine ⟨rfl, rfl, ?_, ?_⟩
  · intro hmem
    have hne : files.isEmpty = false := by
      cases files with
      | nil => simp at hmem
      | cons f fs => rfl
    refine ⟨files.filterMap (fun p => p.2.map (fun u => (p.1, u))), ?_, ?_⟩
    · unfold load_datasets
      simp [hne]
    · exact List.mem_filterMap.mpr ⟨(filename, some t), hmem, rfl⟩
  · intro hmem
    have hne : files.isEmpty = false := by
      cases files with
      | nil => simp at hmem
      | cons f fs => rfl
    refine ⟨files.filterMap (fun p => p.2.map (fun u => (p.1, u))), ?_⟩
    unfold load_datasets
    simp [hne]

/-- Witness data for the loader: one failing file and one good file. -/
def wLoadTable : Table := ⟨1, [⟨"a", "object", [some "x"]⟩]⟩

def wLoadFiles : List (String × Option Table) :=
  [("bad.csv", none), ("good.csv", some wLoadTable)]

/-- Witness for C7: with one unparsable file present, the run still
succeeds and the good file is loaded. -/
theorem loader_error_and_partial_failure_witness :
    ("good.csv", some wLoadTable) ∈ wLoadFiles ∧
    ("bad.csv", (none : Option Table)) ∈ wLoadFiles ∧
    (∃ loaded, load_datasets "private/datasets" (some wLoadFiles) = .ok loaded ∧
      ("good.csv", wLoadTable) ∈ loaded) ∧
    (∃ loaded, load_datasets "private/datasets" (some wLoadFiles) = .ok loaded) :=
  have h1 : ("good.csv", some wLoadTable) ∈ wLoadFiles := by decide
  have h2 : ("bad.csv", (none : Option Table)) ∈ wLoadFiles := by decide
  ⟨h1, h2,
    (loader_error_and_partial_failure "private/datasets" wLoadFiles
      "good.csv" wLoadTable).2.2.1 h1,
    (loader_error_and_partial_failure "private/datasets" wLoadFiles
      "bad.csv" wLoadTable).2.2.2 h2⟩

/-- C8: a table of at most 500 rows is written verbatim under the
`copy_` prefix; a larger table is written under the `sample_` prefix
with exactly its first 500 rows and every column (name, dtype and raw
text cells) preserved. -/
theorem sampler_copy_or_truncate (filename : String) (t : Table) :
    (t.nrows ≤ 500 → sample_file filename t = ("copy_" ++ filename, t)) ∧
    (500 < t.nrows →
      (sample_file filename t).1 = "sample_" ++ filename ∧
      (sample_file filename t).2.nrows = 500 ∧
      (sample_file filename t).2.cols =
        t.cols.map (fun c => { c with cells := c.cells.take 500 })) := by
  constructor
  · intro h
    unfold sample_file
    rw [if_pos h]
  · intro h
    have hn : ¬ t.nrows ≤ 500 := not_le.mpr h
    unfold sample_file
    rw [if_neg hn]
    refine ⟨rfl, ?_, rfl⟩
    show min 500 t.nrows = 500
    exact Nat.min_eq_left (le_of_lt h)

/-- Witness data for the sampler: a 2-row table and a 501-row table. -/
def wBigCol : Column := ⟨"k", "object", List.replicate 501 (some "x")⟩

def wBigTable : Table := ⟨501, [wBigCol]⟩

def wSmallTable : Table := ⟨2, [⟨"k", "object", [some "x", some "y"]⟩]⟩

/-- Witness for C8: both sampler branches on concrete tables. -/
theorem sampler_copy_or_truncate_witness :
    (wSmallTable.nrows ≤ 500 ∧
      sample_file "a.csv" wSmallTable = ("copy_" ++ "a.csv", wSmallTable)) ∧
    (500 < wBigTable.nrows ∧
      ((sample_file "b.csv" wBigTable).1 = "sample_" ++ "b.csv" ∧
        (sample_file "b.csv" wBigTable).2.nrows = 500 ∧
        (sample_file "b.csv" wBigTable).2.cols =
          wBigTable.cols.map (fun c => { c with cells := c.cells.take 500 }))) :=
  ⟨⟨by decide, (sampler_copy_or_truncate "a.csv" wSmallTable).1 (by decide)⟩,
   ⟨by decide, (sampler_copy_or_truncate "b.csv" wBigTable).2 (by decide)⟩⟩

lemma checkCol_int64_object {dfCols : List (String × String)} {c actual : String}
    (hfind : dfCols.find? (fun x => x.1 == c) = some (c, actual))
    (hco : strContains actual "object" = true) :
    checkCol dfCols (c, "int64") = some (c ++ ": expected numeric, got " ++ actual) := by
  unfold checkCol
  rw [hfind]
  have hb1 : (("int64" : String) == "bool") = false := by decide
  have hb2 : (("int64" : String) == "int64") = true := by decide
  simp [hb1, hb2, hco]

/-- C9: a schema column declared `int64` but observed with dtype
containing `"object"` yields exactly one mismatch entry, of the form
`"<column>: expected numeric, got <observed>"`: the output splits
around that single entry, every entry arises from some schema column
(so table columns absent from the schema produce no entry), and the
entries of the surrounding schema segments arise from columns other
than the declared one. -/
theorem schema_checker_int64_object
    (s1 s2 dfCols : List (String × String)) (c actual : String)
    (h1 : ∀ p ∈ s1, p.1 ≠ c) (h2 : ∀ p ∈ s2, p.1 ≠ c)
    (hfind : dfCols.find? (fun x => x.1 == c) = some (c, actual))
    (hco : strContains actual "object" = true) :
    analyze_mismatches (s1 ++ (c, "int64") :: s2) dfCols =
      analyze_mismatches s1 dfCols ++
        (c ++ ": expected numeric, got " ++ actual) :: analyze_mismatches s2 dfCols ∧
    (∀ m ∈ analyze_mismatches (s1 ++ (c, "int64") :: s2) dfCols,
      ∃ p ∈ s1 ++ (c, "int64") :: s2, checkCol dfCols p = some m) ∧
    (∀ m ∈ analyze_mismatches s1 dfCols ++ analyze_mismatches s2 dfCols,
      ∃ p, (p ∈ s1 ∨ p ∈ s2) ∧ p.1 ≠ c ∧ checkCol dfCols p = some m) := by
  refine ⟨?_, ?_, ?_⟩
  · unfold analyze_mismatches
    rw [List.filterMap_append]
    rw [List.filterMap_cons_some (checkCol_int64_object hfind hco)]
  · intro m hm
    exact List.mem_filterMap.mp hm
  · intro m hm
    rcases List.mem_append.mp hm with hmem | hmem
    · obtain ⟨p, hp, hcp⟩ := List.mem_filterMap.mp hmem
      exact ⟨p, Or.inl hp, h1 p hp, hcp⟩
    · obtain ⟨p, hp, hcp⟩ := List.mem_filterMap.mp hmem
      exact ⟨p, Or.inr hp, h2 p hp, hcp⟩

/-- Witness for C9: a one-entry schema declaring `company_id : int64`
against a frame observing it as `object`. -/
theorem schema_checker_int64_object_witness :
    ([("company_id", "object")].find? (fun x => x.1 == "company_id") =
      some ("company_id", "object")) ∧
    strContains "object" "object" = true ∧
    analyze_mismatches ([] ++ ("company_id", "int64") :: []) [("company_id", "object")] =
      analyze_mismatches [] [("company_id", "object")] ++
        ("company_id" ++ ": expected numeric, got " ++ "object") ::
          analyze_mismatches [] [("company_id", "object")] :=
  ⟨rfl, rfl,
    (schema_checker_int64_object [] [] [("company_id", "object")]
      "company_id" "object" (by simp) (by simp) rfl rfl).1⟩

/-- C10: in the overview-report path, one CSV file failing to parse
aborts the whole analysis: `analyze_csv_files` returns an error and no
statistics for any file, because the per-file `pd.read_csv` at line 73
of `analyze_datasets.py` has no exception handling. -/
theorem overview_parse_failure_aborts
    (files : List (String × Option Table))
    (h : ∃ filename, (filename, (none : Option Table)) ∈ files) :
    ∃ e, analyze_csv_files files = Except.error e := by
  induction files with
  | nil =>
    obtain ⟨n, hn⟩ := h
    simp at hn
  | cons f rest ih =>
    obtain ⟨n, hn⟩ := h
    rcases f with ⟨fname, pt⟩
    rcases pt with _ | t
    · exact ⟨fname, rfl⟩
    · have hrest : ∃ filename, (filename, (none : Option Table)) ∈ rest := by
        rcases List.mem_cons.mp hn with heq | hmem
        · exact absurd (congrArg Prod.snd heq) (by simp)
        · exact ⟨n, hmem⟩
      obtain ⟨e, he⟩ := ih hrest
      refine ⟨e, ?_⟩
      show (match analyze_csv_files rest with
        | .error e => .error e
        | .ok rs => .ok (statsFor fname t :: rs)) = Except.error e
      rw [he]

/-- Witness data for C10: a good file followed by an unparsable one. -/
def wC10Files : List (String × Option Table) :=
  [("a.csv", some wLoadTable), ("bad.csv", none)]

/-- Witness for C10: the overview analysis of `wC10Files` errors out. -/
theorem overview_parse_failure_aborts_witness :
    (∃ filename, (filename, (none : Option Table)) ∈ wC10Files) ∧
    (∃ e, analyze_csv_files wC10Files = Except.error e) :=
  have hx : ∃ filename, (filename, (none : Option Table)) ∈ wC10Files :=
    ⟨"bad.csv", by decide⟩
  ⟨hx, overview_parse_failure_aborts wC10Files hx⟩
